import Mathlib

/-
Verification of the pyxus ground-control-station backend core.

Shallow embedding of the Python sources:
  src/backend/drone.py    (DroneConnection: RC validation, mode decoding,
                           status-text ring, PX4 manual-control mapping)
  src/backend/mission.py  (MissionManager: upload / download protocol)
  src/backend/main.py     (HTTP and WebSocket facade, telemetry broadcaster)
  src/backend/vehicle_profiles.py (capability profiles)

Machine floats are modelled as rationals; Python int() truncation toward zero
is modelled explicitly.  Wall-clock times are rationals.
-/

namespace Pyxus

/-- Python int() applied to a float truncates toward zero. -/
def truncToZero (q : ℚ) : ℤ := if q < 0 then ⌈q⌉ else ⌊q⌋

/-- A Python value fed to the RC validator.  Python int(val) either returns an
integer (cases int and float, the latter truncating toward zero; numeric
strings behave like the integer they parse to) or raises TypeError/ValueError
(case nonNumeric, e.g. None or a non-numeric string). -/
inductive PyVal
  | int (n : ℤ)
  | float (q : ℚ)
  | nonNumeric
deriving DecidableEq

/-- The result of Python int(val): some integer, or none when it raises. -/
def pyToInt : PyVal → Option ℤ
  | .int n => some n
  | .float q => some (truncToZero q)
  | .nonNumeric => none

/-- One element of the validation loop body in DroneConnection._validate_rc_channels
(drone.py lines 1061-1070): coerce to int with 0 on failure; 0 stays 0 (release);
any other value is clamped into the PWM range via max(1000, min(2000, v)). -/
def sanitizeChannel (val : PyVal) : ℤ :=
  if (pyToInt val).getD 0 ≠ 0 then max 1000 (min 2000 ((pyToInt val).getD 0))
  else (pyToInt val).getD 0

/-- The trailing while loop of _validate_rc_channels: pad with 0 (release)
until the list has 8 entries. -/
def padTo8 (validated : List ℤ) : List ℤ :=
  validated ++ List.replicate (8 - validated.length) 0

/-- DroneConnection._validate_rc_channels (drone.py lines 1054-1074):
truncate the input to its first 8 elements, sanitize each, then pad with 0
(release) up to 8 channels. -/
def validateRcChannels (channels : List PyVal) : List ℤ :=
  padTo8 ((channels.take 8).map sanitizeChannel)

/-- The inline validation loop of the WebSocket rc_override handler
(main.py lines 1221-1233), written as the loop it is: walk the raw list,
sanitizing, for at most 8 steps, emitting 0 once the input runs out. -/
def wsValidateAux : List PyVal → ℕ → List ℤ
  | _, 0 => []
  | [], n + 1 => 0 :: wsValidateAux [] n
  | val :: rest, n + 1 => sanitizeChannel val :: wsValidateAux rest n

/-- The WebSocket entry point validation (main.py websocket_endpoint). -/
def wsValidateRcChannels (raw : List PyVal) : List ℤ :=
  wsValidateAux raw 8

/-- The channels actually emitted in RC_CHANNELS_OVERRIDE on the ArduPilot
path: DroneConnection.rc_override validates (drone.py line 1078), and the
queue executor validates once more and takes the first eight
(drone.py lines 598-603). -/
def rcOverrideEmitted (channels : List PyVal) : List ℤ :=
  (validateRcChannels ((validateRcChannels channels).map PyVal.int)).take 8

lemma sanitizeChannel_int (n : ℤ) :
    sanitizeChannel (PyVal.int n) = if n ≠ 0 then max 1000 (min 2000 n) else n := rfl

lemma sanitizeChannel_spec (val : PyVal) :
    sanitizeChannel val = 0 ∨ (1000 ≤ sanitizeChannel val ∧ sanitizeChannel val ≤ 2000) := by
  unfold sanitizeChannel
  by_cases h : (pyToInt val).getD 0 = 0
  · left
    simp [h]
  · right
    simp only [ne_eq, h, not_false_eq_true, if_true]
    omega

lemma padTo8_length_of_le {l : List ℤ} (h : l.length ≤ 8) : (padTo8 l).length = 8 := by
  unfold padTo8
  simp only [List.length_append, List.length_replicate]
  omega

lemma padTo8_of_length_eq {l : List ℤ} (h : l.length = 8) : padTo8 l = l := by
  unfold padTo8
  rw [h]
  simp

lemma take_body_length_le (channels : List PyVal) :
    ((channels.take 8).map sanitizeChannel).length ≤ 8 := by
  simp only [List.length_map, List.length_take]
  omega

lemma validateRcChannels_length (channels : List PyVal) :
    (validateRcChannels channels).length = 8 :=
  padTo8_length_of_le (take_body_length_le channels)

lemma validateRcChannels_mem (channels : List PyVal) :
    ∀ v ∈ validateRcChannels channels, v = 0 ∨ (1000 ≤ v ∧ v ≤ 2000) := by
  intro v hv
  unfold validateRcChannels padTo8 at hv
  rcases List.mem_append.mp hv with h | h
  · rcases List.mem_map.mp h with ⟨val, _, rfl⟩
    exact sanitizeChannel_spec val
  · left
    exact List.eq_of_mem_replicate h

lemma sanitizeChannel_idem (val : PyVal) :
    sanitizeChannel (PyVal.int (sanitizeChannel val)) = sanitizeChannel val := by
  rcases sanitizeChannel_spec val with h | h
  · rw [h]; rfl
  · rw [sanitizeChannel_int]
    have h0 : sanitizeChannel val ≠ 0 := by omega
    simp only [ne_eq, h0, not_false_eq_true, if_true]
    omega

lemma validateRcChannels_idem (channels : List PyVal) :
    validateRcChannels ((validateRcChannels channels).map PyVal.int)
      = validateRcChannels channels := by
  have hlen8 : ((validateRcChannels channels).map PyVal.int).length = 8 := by
    rw [List.length_map]
    exact validateRcChannels_length channels
  have htake : ((validateRcChannels channels).map PyVal.int).take 8
      = (validateRcChannels channels).map PyVal.int :=
    List.take_of_length_le (le_of_eq hlen8)
  have hinner : (((validateRcChannels channels).map PyVal.int).map sanitizeChannel)
      = validateRcChannels channels := by
    rw [List.map_map]
    have : ∀ v ∈ validateRcChannels channels, (sanitizeChannel ∘ PyVal.int) v = id v := by
      intro v hv
      rcases validateRcChannels_mem channels v hv with h | h
      · simp [h, Function.comp, sanitizeChannel_int]
      · have h0 : v ≠ 0 := by omega
        simp only [Function.comp, sanitizeChannel_int, ne_eq, h0, not_false_eq_true,
          if_true, id]
        omega
    rw [List.map_congr_left this, List.map_id]
  show padTo8 ((((validateRcChannels channels).map PyVal.int).take 8).map sanitizeChannel)
      = validateRcChannels channels
  rw [htake, hinner]
  exact padTo8_of_length_eq (validateRcChannels_length channels)

lemma wsValidateAux_eq (raw : List PyVal) (n : ℕ) :
    wsValidateAux raw n
      = (raw.take n).map sanitizeChannel
        ++ List.replicate (n - raw.length) 0 := by
  induction n generalizing raw with
  | zero => simp [wsValidateAux]
  | succ n ih =>
    cases raw with
    | nil => simp [wsValidateAux, ih, List.replicate_succ]
    | cons val rest =>
      simp only [wsValidateAux, ih, List.take_succ_cons, List.map_cons, List.cons_append,
        List.length_cons, Nat.succ_sub_succ]

/-- Claim C1: for every input list, the RC-override validator returns exactly
eight integers, each exactly 0 or clamped into [1000, 2000]; each retained
element is the int-coercion of the corresponding input (0 on failure, 0 kept,
otherwise clamped); the WebSocket entry point applies the identical
validation, and the direct path through rc_override re-validates before the
RC_CHANNELS_OVERRIDE emission so the wire always carries validated values. -/
theorem rc_override_validation_contract (channels : List PyVal) :
    (validateRcChannels channels).length = 8
    ∧ (∀ v ∈ validateRcChannels channels, v = 0 ∨ (1000 ≤ v ∧ v ≤ 2000))
    ∧ validateRcChannels channels
        = (channels.take 8).map sanitizeChannel
          ++ List.replicate (8 - min 8 channels.length) 0
    ∧ (∀ val, pyToInt val = none → sanitizeChannel val = 0)
    ∧ (∀ val n, pyToInt val = some n →
        sanitizeChannel val = if n = 0 then 0 else max 1000 (min 2000 n))
    ∧ wsValidateRcChannels channels = validateRcChannels channels
    ∧ rcOverrideEmitted channels = validateRcChannels channels := by
  refine ⟨validateRcChannels_length channels, validateRcChannels_mem channels, ?_, ?_, ?_, ?_, ?_⟩
  · unfold validateRcChannels padTo8
    congr 2
    simp only [List.length_map, List.length_take]
  · intro val h
    unfold sanitizeChannel
    rw [h]
    rfl
  · intro val n h
    unfold sanitizeChannel
    rw [h]
    by_cases hn : n = 0 <;> simp [hn]
  · rw [wsValidateRcChannels, wsValidateAux_eq]
    unfold validateRcChannels padTo8
    congr 2
    simp only [List.length_map, List.length_take]
    omega
  · unfold rcOverrideEmitted
    rw [validateRcChannels_idem]
    exact List.take_of_length_le (le_of_eq (validateRcChannels_length channels))

/-- Witness for C1: the boundary example from the spec, evaluated concretely.
Input [1500, "bad", None, 0, 1200, 3000, -50] maps to
[1500, 0, 0, 0, 1200, 2000, 1000, 0]. -/
theorem rc_override_validation_contract_witness :
    (validateRcChannels [PyVal.int 1500, PyVal.nonNumeric, PyVal.nonNumeric, PyVal.int 0,
        PyVal.int 1200, PyVal.int 3000, PyVal.int (-50)]).length = 8
    ∧ ((1500 : ℤ) = 0 ∨ (1000 ≤ (1500 : ℤ) ∧ (1500 : ℤ) ≤ 2000))
    ∧ validateRcChannels [PyVal.int 1500, PyVal.nonNumeric, PyVal.nonNumeric, PyVal.int 0,
        PyVal.int 1200, PyVal.int 3000, PyVal.int (-50)]
      = [1500, 0, 0, 0, 1200, 2000, 1000, 0] := by
  refine ⟨(rc_override_validation_contract _).1,
    (rc_override_validation_contract [PyVal.int 1500, PyVal.nonNumeric, PyVal.nonNumeric,
        PyVal.int 0, PyVal.int 1200, PyVal.int 3000, PyVal.int (-50)]).2.1
      1500 (by decide), by decide⟩

/-! PX4 MANUAL_CONTROL mapping (claim C6). -/

/-- pwm_to_manual in DroneConnection.rc_override (drone.py lines 1084-1085):
int((pwm - 1500) / 500 * 1000), modelled with exact rational arithmetic
(the quantities involved are exact in binary floating point as well). -/
def pwmToManual (pwm : ℤ) : ℤ := truncToZero (((pwm : ℚ) - 1500) / 500 * 1000)

/-- The four MANUAL_CONTROL axes. -/
structure ManualControl where
  x : ℤ
  y : ℤ
  z : ℤ
  r : ℤ
deriving DecidableEq

/-- The PX4 branch of DroneConnection.rc_override (drone.py lines 1082-1091):
ch1 is roll mapped to y, ch2 pitch to x, ch3 throttle to z via
int((ch[2] - 1000) / 1000 * 1000) with no clamping, ch4 yaw to r. -/
def manualControlOf (channels : List ℤ) : ManualControl :=
  { x := if 1 < channels.length then pwmToManual (channels.getD 1 0) else 0
    y := if 0 < channels.length then pwmToManual (channels.getD 0 0) else 0
    z := if 2 < channels.length then truncToZero (((channels.getD 2 0 : ℚ) - 1000) / 1000 * 1000)
         else 500
    r := if 3 < channels.length then pwmToManual (channels.getD 3 0) else 0 }

lemma truncToZero_intCast (n : ℤ) : truncToZero (n : ℚ) = n := by
  unfold truncToZero
  split <;> simp

lemma pwmToManual_eq (pwm : ℤ) : pwmToManual pwm = (pwm - 1500) * 2 := by
  unfold pwmToManual
  have : ((pwm : ℚ) - 1500) / 500 * 1000 = (((pwm - 1500) * 2 : ℤ) : ℚ) := by
    push_cast
    ring
  rw [this, truncToZero_intCast]

lemma manualZ_eq (c : ℤ) :
    truncToZero (((c : ℚ) - 1000) / 1000 * 1000) = c - 1000 := by
  have : ((c : ℚ) - 1000) / 1000 * 1000 = ((c - 1000 : ℤ) : ℚ) := by
    push_cast
    ring
  rw [this, truncToZero_intCast]

/-- Claim C6 (code bug): the x, y, r axes follow the exact signed mapping
(pwm - 1500) * 2, which agrees with round((pwm - 1500) / 500 * 1000); but z is
computed as ch[2] - 1000 with NO clamping into [0, 1000], so the validated
release value ch[2] = 0 yields z = -1000, outside [0, 1000].  Failing input:
rc_override([1500, 1500, 0, 1500]) on a PX4 vehicle. -/
theorem px4_manual_control_z_unclamped :
    (∀ pwm : ℤ, pwmToManual pwm = (pwm - 1500) * 2)
    ∧ manualControlOf (validateRcChannels
        [PyVal.int 1500, PyVal.int 1500, PyVal.int 0, PyVal.int 1500])
      = { x := 0, y := 0, z := -1000, r := 0 }
    ∧ ¬ (0 ≤ (manualControlOf (validateRcChannels
        [PyVal.int 1500, PyVal.int 1500, PyVal.int 0, PyVal.int 1500])).z) := by
  have hch : validateRcChannels [PyVal.int 1500, PyVal.int 1500, PyVal.int 0, PyVal.int 1500]
      = [1500, 1500, 0, 1500, 0, 0, 0, 0] := by decide
  have h2 : manualControlOf (validateRcChannels
      [PyVal.int 1500, PyVal.int 1500, PyVal.int 0, PyVal.int 1500])
      = { x := 0, y := 0, z := -1000, r := 0 } := by
    rw [hch]
    simp only [manualControlOf, pwmToManual_eq, manualZ_eq]
    decide
  exact ⟨pwmToManual_eq, h2, by rw [h2]; decide⟩

/-! ArduPilot and PX4 mode decoding (claim C4). -/

/-- ARDUPILOT_COPTER_MODES (drone.py lines 155-161). -/
def ARDUPILOT_COPTER_MODES : List (ℕ × String) :=
  [(0, "STABILIZE"), (1, "ACRO"), (2, "ALT_HOLD"), (3, "AUTO"),
   (4, "GUIDED"), (5, "LOITER"), (6, "RTL"), (7, "CIRCLE"),
   (9, "LAND"), (11, "DRIFT"), (13, "SPORT"), (14, "FLIP"),
   (15, "AUTOTUNE"), (16, "POSHOLD"), (17, "BRAKE"), (18, "THROW"),
   (19, "AVOID_ADSB"), (20, "GUIDED_NOGPS"), (21, "SMART_RTL")]

/-- ARDUPILOT_PLANE_MODES (drone.py lines 162-170). -/
def ARDUPILOT_PLANE_MODES : List (ℕ × String) :=
  [(0, "MANUAL"), (1, "CIRCLE"), (2, "STABILIZE"), (3, "TRAINING"),
   (4, "ACRO"), (5, "FBWA"), (6, "FBWB"), (7, "CRUISE"),
   (8, "AUTOTUNE"), (10, "AUTO"), (11, "RTL"), (12, "LOITER"),
   (13, "TAKEOFF"), (14, "AVOID_ADSB"), (15, "GUIDED"),
   (17, "QSTABILIZE"), (18, "QHOVER"), (19, "QLOITER"),
   (20, "QLAND"), (21, "QRTL"), (22, "QAUTOTUNE"), (23, "QACRO"),
   (24, "THERMAL")]

/-- ARDUPILOT_ROVER_MODES (drone.py lines 171-176). -/
def ARDUPILOT_ROVER_MODES : List (ℕ × String) :=
  [(0, "MANUAL"), (1, "ACRO"), (2, "STEERING"), (3, "HOLD"),
   (4, "LOITER"), (5, "FOLLOW"), (6, "SIMPLE"),
   (10, "AUTO"), (11, "RTL"), (12, "SMART_RTL"),
   (15, "GUIDED")]

/-- ARDUPILOT_SUB_MODES (drone.py lines 177-181). -/
def ARDUPILOT_SUB_MODES : List (ℕ × String) :=
  [(0, "STABILIZE"), (1, "ACRO"), (2, "ALT_HOLD"),
   (3, "AUTO"), (4, "GUIDED"), (7, "CIRCLE"),
   (9, "SURFACE"), (16, "POSHOLD"), (19, "MANUAL")]

/-- The _ARDUPILOT_MODE_MAP_BY_TYPE dict (drone.py lines 186-197): fixed wing
type 1 maps to the plane table, rover and boat to rover, submarine to sub, the
multirotor types to copter, and the VTOL types 19..25 to plane. -/
def ardupilotModeMapByType : List (ℕ × List (ℕ × String)) :=
  [(1, ARDUPILOT_PLANE_MODES),
   (10, ARDUPILOT_ROVER_MODES), (11, ARDUPILOT_ROVER_MODES),
   (12, ARDUPILOT_SUB_MODES),
   (2, ARDUPILOT_COPTER_MODES), (3, ARDUPILOT_COPTER_MODES),
   (4, ARDUPILOT_COPTER_MODES), (13, ARDUPILOT_COPTER_MODES),
   (14, ARDUPILOT_COPTER_MODES), (15, ARDUPILOT_COPTER_MODES),
   (29, ARDUPILOT_COPTER_MODES), (35, ARDUPILOT_COPTER_MODES),
   (19, ARDUPILOT_PLANE_MODES), (20, ARDUPILOT_PLANE_MODES),
   (21, ARDUPILOT_PLANE_MODES), (22, ARDUPILOT_PLANE_MODES),
   (23, ARDUPILOT_PLANE_MODES), (24, ARDUPILOT_PLANE_MODES),
   (25, ARDUPILOT_PLANE_MODES)]

/-- ardupilot_modes_for_type (drone.py lines 200-202): dict lookup with the
copter table as fallback. -/
def ardupilotModesForType (mavType : ℕ) : List (ℕ × String) :=
  (ardupilotModeMapByType.lookup mavType).getD ARDUPILOT_COPTER_MODES

/-- ArduPilot mode decoding in _handle_message (drone.py lines 988-991):
table lookup of custom_mode with the MODE_<n> fallback. -/
def decodeArdupilotMode (mavType custom : ℕ) : String :=
  ((ardupilotModesForType mavType).lookup custom).getD ("MODE_" ++ toString custom)

/-- PX4_MODES (drone.py lines 258-271). -/
def PX4_MODES : List ((ℕ × ℕ) × String) :=
  [((0, 0), "UNKNOWN"),
   ((1, 0), "MANUAL"), ((1, 1), "MANUAL"),
   ((2, 0), "ALTCTL"), ((2, 1), "ALTCTL"),
   ((3, 0), "POSCTL"), ((3, 1), "POSCTL"),
   ((4, 0), "AUTO"), ((4, 1), "AUTO_READY"), ((4, 2), "AUTO_TAKEOFF"),
   ((4, 3), "AUTO_LOITER"), ((4, 4), "AUTO_MISSION"),
   ((4, 5), "AUTO_RTL"), ((4, 6), "AUTO_LAND"),
   ((4, 7), "AUTO_RTGS"), ((4, 8), "AUTO_FOLLOW"),
   ((5, 0), "ACRO"),
   ((6, 0), "OFFBOARD"),
   ((7, 0), "STABILIZED"),
   ((8, 0), "RATTITUDE")]

/-- PX4 mode decoding in _handle_message (drone.py lines 993-998):
main_mode and sub_mode extracted at fixed bit positions, with the
PX4_<m>_<s> fallback for unknown pairs. -/
def decodePX4Mode (customMode : ℕ) : String :=
  (PX4_MODES.lookup ((customMode >>> 16) &&& 255, (customMode >>> 24) &&& 255)).getD
    ("PX4_" ++ toString ((customMode >>> 16) &&& 255)
      ++ "_" ++ toString ((customMode >>> 24) &&& 255))

/-- The armed flag from a HEARTBEAT (drone.py line 982):
bool(base_mode and MAV_MODE_FLAG_SAFETY_ARMED), the flag being 128. -/
def heartbeatArmed (baseMode : ℕ) : Bool := baseMode &&& 128 != 0

/-- The mode-table selection exactly as claim C4 words it: multirotor types
{2, 3, 4, 13, 14, 15, 29, 35} use the copter table, VTOL 19..25 the plane
table, 10 and 11 rover, 12 sub, and ANY OTHER type the copter table.
Defined from the words of the claim, for comparison against
ardupilotModesForType, which is defined from the source. -/
def claimedArdupilotModesForType (mavType : ℕ) : List (ℕ × String) :=
  if mavType ∈ ([2, 3, 4, 13, 14, 15, 29, 35] : List ℕ) then ARDUPILOT_COPTER_MODES
  else if 19 ≤ mavType ∧ mavType ≤ 25 then ARDUPILOT_PLANE_MODES
  else if mavType = 10 ∨ mavType = 11 then ARDUPILOT_ROVER_MODES
  else if mavType = 12 then ARDUPILOT_SUB_MODES
  else ARDUPILOT_COPTER_MODES

/-- Counterexample to claim C4: mav_type 1 (Fixed Wing) is none of the listed
multirotor, VTOL, rover or sub types, so the claim puts it on the copter
table; the code puts it on the plane table.  At custom_mode 0 the code decodes
MANUAL while the claim-side table decodes STABILIZE. -/
theorem ardupilot_mode_table_counterexample :
    decodeArdupilotMode 1 0 = "MANUAL"
    ∧ ((claimedArdupilotModesForType 1).lookup 0).getD ("MODE_" ++ toString 0) = "STABILIZE"
    ∧ ardupilotModesForType 1 ≠ claimedArdupilotModesForType 1 := by
  decide

lemma lookup_eq_none_of_forall {α β : Type} [BEq α] [LawfulBEq α]
    (l : List (α × β)) (k : α) (h : ∀ p ∈ l, p.1 ≠ k) : l.lookup k = none := by
  induction l with
  | nil => rfl
  | cons p rest ih =>
    obtain ⟨pk, pb⟩ := p
    have hne : pk ≠ k := h (pk, pb) (by simp)
    have hbeq : (k == pk) = false := by
      simp [Ne.symm hne]
    simp only [List.lookup, hbeq]
    exact ih (fun q hq => h q (by simp [hq]))

/-- Claim C4 as amended: the selection is as claimed for multirotors, VTOLs,
rover, boat and sub, but fixed wing (mav_type 1) uses the PLANE table; only
types outside {1, 2, 3, 4, 10, 11, 12, 13, 14, 15, 19..25, 29, 35} fall back
to the copter table.  Unknown custom_mode renders MODE_<n>; PX4 decoding uses
main = (custom >> 16) and 255 and sub = (custom >> 24) and 255 with the
PX4_<m>_<s> fallback; and armed is exactly the 128 bit of base_mode. -/
theorem mode_decoding_amended (mavType custom customMode baseMode : ℕ) :
    (mavType = 1 → ardupilotModesForType mavType = ARDUPILOT_PLANE_MODES)
    ∧ (19 ≤ mavType → mavType ≤ 25 → ardupilotModesForType mavType = ARDUPILOT_PLANE_MODES)
    ∧ (mavType ∈ ([2, 3, 4, 13, 14, 15, 29, 35] : List ℕ) →
        ardupilotModesForType mavType = ARDUPILOT_COPTER_MODES)
    ∧ (mavType = 10 ∨ mavType = 11 → ardupilotModesForType mavType = ARDUPILOT_ROVER_MODES)
    ∧ (mavType = 12 → ardupilotModesForType mavType = ARDUPILOT_SUB_MODES)
    ∧ (mavType ∉ ([1, 2, 3, 4, 10, 11, 12, 13, 14, 15,
                   19, 20, 21, 22, 23, 24, 25, 29, 35] : List ℕ) →
        ardupilotModesForType mavType = ARDUPILOT_COPTER_MODES)
    ∧ ((ardupilotModesForType mavType).lookup custom = none →
        decodeArdupilotMode mavType custom = "MODE_" ++ toString custom)
    ∧ (∀ name, (ardupilotModesForType mavType).lookup custom = some name →
        decodeArdupilotMode mavType custom = name)
    ∧ (PX4_MODES.lookup ((customMode >>> 16) &&& 255, (customMode >>> 24) &&& 255) = none →
        decodePX4Mode customMode
          = "PX4_" ++ toString ((customMode >>> 16) &&& 255)
            ++ "_" ++ toString ((customMode >>> 24) &&& 255))
    ∧ (∀ name,
        PX4_MODES.lookup ((customMode >>> 16) &&& 255, (customMode >>> 24) &&& 255)
          = some name → decodePX4Mode customMode = name)
    ∧ (heartbeatArmed baseMode = true ↔ baseMode &&& 128 ≠ 0) := by
  refine ⟨?_, ?_, ?_, ?_, ?_, ?_, ?_, ?_, ?_, ?_, ?_⟩
  · rintro rfl; decide
  · intro h1 h2
    interval_cases mavType <;> decide
  · intro h
    fin_cases h <;> decide
  · rintro (rfl | rfl) <;> decide
  · rintro rfl; decide
  · intro h
    unfold ardupilotModesForType
    have hnone : ardupilotModeMapByType.lookup mavType = none := by
      apply lookup_eq_none_of_forall
      intro p hp hpk
      apply h
      have hmem : p.1 ∈ ardupilotModeMapByType.map Prod.fst := List.mem_map_of_mem Prod.fst hp
      have hkeys : ardupilotModeMapByType.map Prod.fst
          = [1, 10, 11, 12, 2, 3, 4, 13, 14, 15, 29, 35,
             19, 20, 21, 22, 23, 24, 25] := rfl
      rw [hkeys] at hmem
      rw [hpk] at hmem
      simp only [List.mem_cons, List.not_mem_nil, or_false] at hmem ⊢
      omega
    rw [hnone]
    rfl
  · intro h
    unfold decodeArdupilotMode
    rw [h]
    rfl
  · intro name h
    unfold decodeArdupilotMode
    rw [h]
    rfl
  · intro h
    unfold decodePX4Mode
    rw [h]
    rfl
  · intro name h
    unfold decodePX4Mode
    rw [h]
    rfl
  · simp [heartbeatArmed, bne_iff_ne]

/-- Witness for the amended C4: mav_type 7 (Airship) is unlisted and falls
back to the copter table; custom_mode 8 is not in the copter table so it
renders MODE_8; PX4 pair (9, 9) is unknown and renders PX4_9_9; and
base_mode 217 has the armed bit set. -/
theorem mode_decoding_amended_witness :
    ardupilotModesForType 7 = ARDUPILOT_COPTER_MODES
    ∧ decodeArdupilotMode 7 8 = "MODE_8"
    ∧ decodePX4Mode 151584768 = "PX4_9_9"
    ∧ heartbeatArmed 217 = true := by
  refine ⟨(mode_decoding_amended 7 8 0 0).2.2.2.2.2.1 (by decide),
    ?_, ?_, (mode_decoding_amended 0 0 0 217).2.2.2.2.2.2.2.2.2.2.mpr (by decide)⟩
  · have h := (mode_decoding_amended 7 8 0 0).2.2.2.2.2.2.1 (by decide)
    simpa using h
  · have h := (mode_decoding_amended 0 0 151584768 0).2.2.2.2.2.2.2.2.1 (by decide)
    simpa using h

/-! Mission protocol engine (claims C2 and C3), from src/backend/mission.py. -/

/-- A mission waypoint record (mission.py lines 9-19). -/
structure Waypoint where
  lat : ℚ
  lon : ℚ
  alt : ℚ
  itemType : String := "waypoint"
  param1 : ℚ := 0
  param2 : ℚ := 2
  param3 : ℚ := 0
  param4 : ℚ := 0
deriving DecidableEq

instance : Inhabited Waypoint := ⟨{ lat := 0, lon := 0, alt := 0 }⟩

/-- ITEM_TYPE_COMMANDS (mission.py lines 23-33), with the numeric values of
the pymavlink MAV_CMD constants. -/
def ITEM_TYPE_COMMANDS : List (String × ℕ) :=
  [("waypoint", 16), ("takeoff", 22), ("loiter_unlim", 17),
   ("loiter_turns", 18), ("loiter_time", 19), ("roi", 201),
   ("land", 21), ("do_jump", 177), ("do_set_servo", 183)]

/-- COMMAND_ITEM_TYPES (mission.py line 36): the inverted dict. -/
def COMMAND_ITEM_TYPES : List (ℕ × String) :=
  ITEM_TYPE_COMMANDS.map (fun p => (p.2, p.1))

/-- Python int(value * 1e7), the wire scaling of coordinates. -/
def scaleCoord (deg : ℚ) : ℤ := truncToZero (deg * 10000000)

/-- One MISSION_ITEM_INT message as sent by the command executor
(drone.py lines 619-635). -/
structure MissionItemInt where
  seq : ℕ
  frame : ℕ
  command : ℕ
  current : ℕ
  autocontinue : ℕ
  param1 : ℚ := 0
  param2 : ℚ := 0
  param3 : ℚ := 0
  param4 : ℚ := 0
  x : ℤ
  y : ℤ
  z : ℚ
  missionType : ℕ := 0
deriving DecidableEq

/-- MissionManager._send_mission_item (mission.py lines 54-90).  Seq 0 is the
synthetic home slot: frame GLOBAL_INT (5), command WAYPOINT (16), the first
waypoint coordinates at z 0.  Seq at least 1 sends waypoint seq-1: frame
GLOBAL_RELATIVE_ALT_INT (6), command from ITEM_TYPE_COMMANDS with WAYPOINT as
default, coordinates scaled by 1e7, altitude and params as given. -/
def sendMissionItem (seq : ℕ) (waypoints : List Waypoint) : MissionItemInt :=
  if seq = 0 then
    { seq := 0, frame := 5, command := 16, current := 0, autocontinue := 1,
      x := scaleCoord (waypoints.getD 0 default).lat,
      y := scaleCoord (waypoints.getD 0 default).lon,
      z := 0 }
  else
    { seq := seq, frame := 6,
      command := (ITEM_TYPE_COMMANDS.lookup (waypoints.getD (seq - 1) default).itemType).getD 16,
      current := 0, autocontinue := 1,
      param1 := (waypoints.getD (seq - 1) default).param1,
      param2 := (waypoints.getD (seq - 1) default).param2,
      param3 := (waypoints.getD (seq - 1) default).param3,
      param4 := (waypoints.getD (seq - 1) default).param4,
      x := scaleCoord (waypoints.getD (seq - 1) default).lat,
      y := scaleCoord (waypoints.getD (seq - 1) default).lon,
      z := (waypoints.getD (seq - 1) default).alt }

/-- One downloaded waypoint dict as built by MissionManager.download
(mission.py lines 280-290). -/
structure DownloadedItem where
  lat : ℚ
  lon : ℚ
  alt : ℚ
  itemType : String
  param1 : ℚ
  param2 : ℚ
  param3 : ℚ
  param4 : ℚ
deriving DecidableEq

instance : Inhabited DownloadedItem :=
  ⟨{ lat := 0, lon := 0, alt := 0, itemType := "waypoint",
     param1 := 0, param2 := 0, param3 := 0, param4 := 0 }⟩

/-- The decoding step of MissionManager.download: x and y divided by 1e7,
item_type reversed from the command number with waypoint default. -/
def decodeMissionItem (m : MissionItemInt) : DownloadedItem :=
  { lat := (m.x : ℚ) / 10000000,
    lon := (m.y : ℚ) / 10000000,
    alt := m.z,
    itemType := (COMMAND_ITEM_TYPES.lookup m.command).getD "waypoint",
    param1 := m.param1, param2 := m.param2, param3 := m.param3, param4 := m.param4 }

/-- Upload of N waypoints followed by download: the vehicle stores the items
answered for MISSION_REQUEST_INT(seq), seq in 1..N, and download decodes
exactly those (it requests seq 1..count-1 with count = N+1). -/
def roundTrip (wps : List Waypoint) : List DownloadedItem :=
  (List.range wps.length).map (fun i => decodeMissionItem (sendMissionItem (i + 1) wps))

/-- An inbound mission protocol message routed to the mission inbox
(drone.py lines 832-836). -/
inductive MissionMsg
  | ack (result : ℕ)
  | request (seq : ℕ)
  | requestInt (seq : ℕ)
  | count (c : ℕ)
  | itemInt (item : MissionItemInt)
deriving DecidableEq

/-- A protocol message emitted by the upload engine. -/
inductive UploadSend
  | count (c : ℕ) (missionType : ℕ)
  | item (it : MissionItemInt)
deriving DecidableEq

/-- The event loop of MissionManager.upload (mission.py lines 109-138).
The inbox is the time-stamped FIFO of routed protocol messages; recv blocks
for up to 5 seconds, so a head message arriving after now + 5 is a read
timeout; the loop guard is a 30 second deadline checked before each read.
Returns (success, mission status, emitted messages). -/
def uploadLoop (total : ℕ) (wps : List Waypoint) :
    ℚ → List (ℚ × MissionMsg) → Bool × String × List UploadSend
  | _now, [] => (false, "upload_failed", [])
  | now, (t, m) :: rest =>
    if 30 ≤ now then (false, "upload_failed", [])
    else if now + 5 < t then (false, "upload_failed", [])
    else
      match m with
      | .ack r =>
        if r = 0 then (true, "uploaded", []) else (false, "upload_failed", [])
      | .request seq =>
        if seq < total then
          ((uploadLoop total wps (max now t) rest).1,
           (uploadLoop total wps (max now t) rest).2.1,
           UploadSend.item (sendMissionItem seq wps) :: (uploadLoop total wps (max now t) rest).2.2)
        else (false, "upload_failed", [])
      | .requestInt seq =>
        if seq < total then
          ((uploadLoop total wps (max now t) rest).1,
           (uploadLoop total wps (max now t) rest).2.1,
           UploadSend.item (sendMissionItem seq wps) :: (uploadLoop total wps (max now t) rest).2.2)
        else (false, "upload_failed", [])
      | .count _ => uploadLoop total wps (max now t) rest
      | .itemInt _ => uploadLoop total wps (max now t) rest

/-- MissionManager.upload (mission.py lines 92-143): not connected or empty
waypoint list returns False before any protocol message; otherwise
MISSION_COUNT(len + 1, MISSION) is emitted first and the event loop runs. -/
def upload (connected : Bool) (status0 : String) (wps : List Waypoint)
    (inbox : List (ℚ × MissionMsg)) : Bool × String × List UploadSend :=
  if connected = false ∨ wps = [] then (false, status0, [])
  else
    ((uploadLoop (wps.length + 1) wps 0 inbox).1,
     (uploadLoop (wps.length + 1) wps 0 inbox).2.1,
     UploadSend.count (wps.length + 1) 0 :: (uploadLoop (wps.length + 1) wps 0 inbox).2.2)

lemma uploadLoop_nil (total : ℕ) (wps : List Waypoint) (now : ℚ) :
    uploadLoop total wps now [] = (false, "upload_failed", []) := rfl

lemma uploadLoop_deadline (total : ℕ) (wps : List Waypoint) (now t : ℚ)
    (m : MissionMsg) (rest : List (ℚ × MissionMsg)) (h : 30 ≤ now) :
    uploadLoop total wps now ((t, m) :: rest) = (false, "upload_failed", []) := by
  cases m <;> simp only [uploadLoop] <;> rw [if_pos h]

lemma uploadLoop_timeout (total : ℕ) (wps : List Waypoint) (now t : ℚ)
    (m : MissionMsg) (rest : List (ℚ × MissionMsg)) (h30 : ¬ 30 ≤ now)
    (ht : now + 5 < t) :
    uploadLoop total wps now ((t, m) :: rest) = (false, "upload_failed", []) := by
  cases m <;> simp only [uploadLoop] <;> rw [if_neg h30, if_pos ht]

lemma uploadLoop_ack (total : ℕ) (wps : List Waypoint) (now t : ℚ) (r : ℕ)
    (rest : List (ℚ × MissionMsg)) (h30 : ¬ 30 ≤ now) (ht : ¬ now + 5 < t) :
    uploadLoop total wps now ((t, MissionMsg.ack r) :: rest)
      = if r = 0 then (true, "uploaded", []) else (false, "upload_failed", []) := by
  simp only [uploadLoop]
  rw [if_neg h30, if_neg ht]

lemma uploadLoop_request (total : ℕ) (wps : List Waypoint) (now t : ℚ) (seq : ℕ)
    (rest : List (ℚ × MissionMsg)) (h30 : ¬ 30 ≤ now) (ht : ¬ now + 5 < t) :
    uploadLoop total wps now ((t, MissionMsg.request seq) :: rest)
      = if seq < total then
          ((uploadLoop total wps (max now t) rest).1,
           (uploadLoop total wps (max now t) rest).2.1,
           UploadSend.item (sendMissionItem seq wps) :: (uploadLoop total wps (max now t) rest).2.2)
        else (false, "upload_failed", []) := by
  simp only [uploadLoop]
  rw [if_neg h30, if_neg ht]

lemma uploadLoop_requestInt (total : ℕ) (wps : List Waypoint) (now t : ℚ) (seq : ℕ)
    (rest : List (ℚ × MissionMsg)) (h30 : ¬ 30 ≤ now) (ht : ¬ now + 5 < t) :
    uploadLoop total wps now ((t, MissionMsg.requestInt seq) :: rest)
      = if seq < total then
          ((uploadLoop total wps (max now t) rest).1,
           (uploadLoop total wps (max now t) rest).2.1,
           UploadSend.item (sendMissionItem seq wps) :: (uploadLoop total wps (max now t) rest).2.2)
        else (false, "upload_failed", []) := by
  simp only [uploadLoop]
  rw [if_neg h30, if_neg ht]

lemma uploadLoop_count (total : ℕ) (wps : List Waypoint) (now t : ℚ) (c : ℕ)
    (rest : List (ℚ × MissionMsg)) (h30 : ¬ 30 ≤ now) (ht : ¬ now + 5 < t) :
    uploadLoop total wps now ((t, MissionMsg.count c) :: rest)
      = uploadLoop total wps (max now t) rest := by
  simp only [uploadLoop]
  rw [if_neg h30, if_neg ht]

lemma uploadLoop_itemInt (total : ℕ) (wps : List Waypoint) (now t : ℚ) (it : MissionItemInt)
    (rest : List (ℚ × MissionMsg)) (h30 : ¬ 30 ≤ now) (ht : ¬ now + 5 < t) :
    uploadLoop total wps now ((t, MissionMsg.itemInt it) :: rest)
      = uploadLoop total wps (max now t) rest := by
  simp only [uploadLoop]
  rw [if_neg h30, if_neg ht]

/-- Every exit of the loop has a matching status: uploaded on success,
upload_failed on failure. -/
lemma uploadLoop_status (total : ℕ) (wps : List Waypoint) :
    ∀ (inbox : List (ℚ × MissionMsg)) (now : ℚ),
      (uploadLoop total wps now inbox).2.1
        = if (uploadLoop total wps now inbox).1 then "uploaded" else "upload_failed" := by
  intro inbox
  induction inbox with
  | nil => intro now; rw [uploadLoop_nil]; rfl
  | cons p rest ih =>
    obtain ⟨t, m⟩ := p
    intro now
    by_cases h30 : 30 ≤ now
    · rw [uploadLoop_deadline _ _ _ _ _ _ h30]; rfl
    · by_cases ht : now + 5 < t
      · rw [uploadLoop_timeout _ _ _ _ _ _ h30 ht]; rfl
      · cases m with
        | ack r =>
          rw [uploadLoop_ack _ _ _ _ _ _ h30 ht]
          by_cases hr : r = 0 <;> simp [hr]
        | request seq =>
          rw [uploadLoop_request _ _ _ _ _ _ h30 ht]
          by_cases hs : seq < total
          · simp only [if_pos hs]
            exact ih (max now t)
          · simp [hs]
        | requestInt seq =>
          rw [uploadLoop_requestInt _ _ _ _ _ _ h30 ht]
          by_cases hs : seq < total
          · simp only [if_pos hs]
            exact ih (max now t)
          · simp [hs]
        | count c =>
          rw [uploadLoop_count _ _ _ _ _ _ h30 ht]
          exact ih (max now t)
        | itemInt it =>
          rw [uploadLoop_itemInt _ _ _ _ _ _ h30 ht]
          exact ih (max now t)

/-- Success implies an accepted MISSION_ACK was present in the inbox. -/
lemma uploadLoop_ack_mem (total : ℕ) (wps : List Waypoint) :
    ∀ (inbox : List (ℚ × MissionMsg)) (now : ℚ),
      (uploadLoop total wps now inbox).1 = true →
      ∃ t, (t, MissionMsg.ack 0) ∈ inbox := by
  intro inbox
  induction inbox with
  | nil => intro now h; rw [uploadLoop_nil] at h; simp at h
  | cons p rest ih =>
    obtain ⟨t, m⟩ := p
    intro now h
    by_cases h30 : 30 ≤ now
    · rw [uploadLoop_deadline _ _ _ _ _ _ h30] at h; simp at h
    · by_cases ht : now + 5 < t
      · rw [uploadLoop_timeout _ _ _ _ _ _ h30 ht] at h; simp at h
      · cases m with
        | ack r =>
          rw [uploadLoop_ack _ _ _ _ _ _ h30 ht] at h
          by_cases hr : r = 0
          · subst hr
            exact ⟨t, by simp⟩
          · simp [hr] at h
        | request seq =>
          rw [uploadLoop_request _ _ _ _ _ _ h30 ht] at h
          by_cases hs : seq < total
          · simp only [if_pos hs] at h
            obtain ⟨ta, hmem⟩ := ih (max now t) h
            exact ⟨ta, by simp [hmem]⟩
          · simp [hs] at h
        | requestInt seq =>
          rw [uploadLoop_requestInt _ _ _ _ _ _ h30 ht] at h
          by_cases hs : seq < total
          · simp only [if_pos hs] at h
            obtain ⟨ta, hmem⟩ := ih (max now t) h
            exact ⟨ta, by simp [hmem]⟩
          · simp [hs] at h
        | count c =>
          rw [uploadLoop_count _ _ _ _ _ _ h30 ht] at h
          obtain ⟨ta, hmem⟩ := ih (max now t) h
          exact ⟨ta, by simp [hmem]⟩
        | itemInt it =>
          rw [uploadLoop_itemInt _ _ _ _ _ _ h30 ht] at h
          obtain ⟨ta, hmem⟩ := ih (max now t) h
          exact ⟨ta, by simp [hmem]⟩

/-- Completeness: a trace of in-window requests for valid sequence numbers
followed by an accepted ACK makes the upload succeed. -/
lemma uploadLoop_complete (total : ℕ) (wps : List Waypoint) :
    ∀ (pre : List (ℚ × MissionMsg)) (now ta : ℚ),
      0 ≤ now → now ≤ 5 → 0 ≤ ta → ta ≤ 5 →
      (∀ p ∈ pre, 0 ≤ p.1 ∧ p.1 ≤ 5 ∧ ∃ s, s < total ∧
        (p.2 = MissionMsg.request s ∨ p.2 = MissionMsg.requestInt s)) →
      (uploadLoop total wps now (pre ++ [(ta, MissionMsg.ack 0)])).1 = true := by
  intro pre
  induction pre with
  | nil =>
    intro now ta h0 h5 hta0 hta _
    have h30 : ¬ 30 ≤ now := by linarith
    have ht : ¬ now + 5 < ta := by linarith
    rw [List.nil_append, uploadLoop_ack _ _ _ _ _ _ h30 ht]
    simp
  | cons p pre ih =>
    intro now ta h0 h5 hta0 hta hvalid
    obtain ⟨t, m⟩ := p
    obtain ⟨ht0, ht5, s, hs, hm⟩ := hvalid (t, m) (by simp)
    have hrest : ∀ q ∈ pre, 0 ≤ q.1 ∧ q.1 ≤ 5 ∧ ∃ s, s < total ∧
        (q.2 = MissionMsg.request s ∨ q.2 = MissionMsg.requestInt s) :=
      fun q hq => hvalid q (by simp [hq])
    have h30 : ¬ 30 ≤ now := by linarith
    have htw : ¬ now + 5 < t := by linarith
    have hmax0 : 0 ≤ max now t := le_max_of_le_left h0
    have hmax5 : max now t ≤ 5 := max_le h5 ht5
    rcases hm with hm | hm <;> subst hm
    · rw [List.cons_append, uploadLoop_request _ _ _ _ _ _ h30 htw]
      simp only [if_pos hs]
      exact ih (max now t) ta hmax0 hmax5 hta0 hta hrest
    · rw [List.cons_append, uploadLoop_requestInt _ _ _ _ _ _ h30 htw]
      simp only [if_pos hs]
      exact ih (max now t) ta hmax0 hmax5 hta0 hta hrest

/-- Claim C2: upload emits MISSION_COUNT(len + 1) first; it returns true only
when an accepted MISSION_ACK was received, with status uploaded; every failure
of a started protocol run (non-accepted ACK, read timeout, out-of-range
request, deadline) leaves status upload_failed; an empty waypoint list (or a
disconnected vehicle) returns false without starting the protocol; and a
timely trace of valid requests followed by an accepted ACK yields true. -/
theorem mission_upload_contract (connected : Bool) (status0 : String)
    (wps : List Waypoint) (inbox : List (ℚ × MissionMsg)) :
    (wps = [] → upload connected status0 wps inbox = (false, status0, []))
    ∧ (connected = false → upload connected status0 wps inbox = (false, status0, []))
    ∧ (connected = true → wps ≠ [] →
        (upload connected status0 wps inbox).2.2.head?
          = some (UploadSend.count (wps.length + 1) 0))
    ∧ ((upload connected status0 wps inbox).1 = true →
        (upload connected status0 wps inbox).2.1 = "uploaded"
        ∧ ∃ t, (t, MissionMsg.ack 0) ∈ inbox)
    ∧ (connected = true → wps ≠ [] → (upload connected status0 wps inbox).1 = false →
        (upload connected status0 wps inbox).2.1 = "upload_failed")
    ∧ (∀ pre ta, inbox = pre ++ [(ta, MissionMsg.ack 0)] →
        0 ≤ ta → ta ≤ 5 →
        (∀ p ∈ pre, 0 ≤ p.1 ∧ p.1 ≤ 5 ∧ ∃ s, s < wps.length + 1 ∧
          (p.2 = MissionMsg.request s ∨ p.2 = MissionMsg.requestInt s)) →
        connected = true → wps ≠ [] →
        (upload connected status0 wps inbox).1 = true) := by
  refine ⟨?_, ?_, ?_, ?_, ?_, ?_⟩
  · intro h
    unfold upload
    rw [if_pos (Or.inr h)]
  · intro h
    unfold upload
    rw [if_pos (Or.inl h)]
  · intro hc hw
    unfold upload
    rw [if_neg (by simp [hc, hw])]
    rfl
  · intro h
    unfold upload at h ⊢
    by_cases hcw : connected = false ∨ wps = []
    · rw [if_pos hcw] at h; simp at h
    · rw [if_neg hcw] at h ⊢
      simp only at h ⊢
      refine ⟨?_, uploadLoop_ack_mem _ _ inbox 0 h⟩
      rw [uploadLoop_status]
      simp [h]
  · intro hc hw h
    unfold upload at h ⊢
    rw [if_neg (by simp [hc, hw])] at h ⊢
    simp only at h ⊢
    rw [uploadLoop_status]
    simp [h]
  · intro pre ta hinbox hta0 hta hpre hc hw
    unfold upload
    rw [if_neg (by simp [hc, hw])]
    simp only
    rw [hinbox]
    exact uploadLoop_complete _ _ pre 0 ta le_rfl (by norm_num) hta0 hta hpre

/-- Witness for C2: a single-waypoint upload whose inbox times out
immediately returns false with status upload_failed; and the good trace
request(1) then accepted ACK returns true.  Both derived by applying the
contract at concrete inputs. -/
theorem mission_upload_contract_witness :
    (upload true "idle" [{ lat := 515 / 10, lon := -1 / 10, alt := 50 }] []).2.1
      = "upload_failed"
    ∧ (upload true "idle" [{ lat := 515 / 10, lon := -1 / 10, alt := 50 }]
        [(1, MissionMsg.requestInt 0), (2, MissionMsg.requestInt 1),
         (3, MissionMsg.ack 0)]).1 = true := by
  constructor
  · exact (mission_upload_contract true "idle"
      [{ lat := 515 / 10, lon := -1 / 10, alt := 50 }] []).2.2.2.2.1 rfl
      (by simp) (by decide)
  · exact (mission_upload_contract true "idle"
      [{ lat := 515 / 10, lon := -1 / 10, alt := 50 }]
      [(1, MissionMsg.requestInt 0), (2, MissionMsg.requestInt 1),
       (3, MissionMsg.ack 0)]).2.2.2.2.2
      [(1, MissionMsg.requestInt 0), (2, MissionMsg.requestInt 1)] 3 rfl
      (by norm_num) (by norm_num)
      (by
        intro p hp
        fin_cases hp
        · exact ⟨by norm_num, by norm_num, 0, by norm_num, Or.inr rfl⟩
        · exact ⟨by norm_num, by norm_num, 1, by norm_num, Or.inr rfl⟩)
      rfl (by simp)

lemma abs_truncToZero_sub_lt_one (q : ℚ) : |(truncToZero q : ℚ) - q| < 1 := by
  unfold truncToZero
  split
  · have h1 : q ≤ (⌈q⌉ : ℚ) := Int.le_ceil q
    have h2 : (⌈q⌉ : ℚ) < q + 1 := Int.ceil_lt_add_one q
    rw [abs_lt]
    constructor <;> linarith
  · have h1 : (⌊q⌋ : ℚ) ≤ q := Int.floor_le q
    have h2 : q < ⌊q⌋ + 1 := Int.lt_floor_add_one q
    rw [abs_lt]
    constructor <;> linarith

/-- Round trip of the int32 times 1e7 coordinate scaling: the decoded value
is strictly within 1e-7 degrees of the original. -/
lemma scaleCoord_roundtrip (deg : ℚ) :
    |(scaleCoord deg : ℚ) / 10000000 - deg| < 1 / 10000000 := by
  have h := abs_truncToZero_sub_lt_one (deg * 10000000)
  have hpos : (0 : ℚ) < 10000000 := by norm_num
  have heq : (scaleCoord deg : ℚ) / 10000000 - deg
      = ((truncToZero (deg * 10000000) : ℚ) - deg * 10000000) / 10000000 := by
    unfold scaleCoord
    field_simp
    ring
  rw [heq, abs_div, abs_of_pos hpos, div_lt_div_iff_of_pos_right hpos]
  exact h

lemma mem_of_lookup_eq_some {α β : Type} [BEq α] [LawfulBEq α]
    {l : List (α × β)} {k : α} {b : β} (h : l.lookup k = some b) : (k, b) ∈ l := by
  induction l with
  | nil => simp [List.lookup] at h
  | cons p rest ih =>
    obtain ⟨pk, pb⟩ := p
    rcases hbeq : k == pk with _ | _
    · simp only [List.lookup, hbeq] at h
      exact List.mem_cons_of_mem _ (ih h)
    · simp only [List.lookup, hbeq] at h
      have hk : k = pk := eq_of_beq hbeq
      subst hk
      rw [show pb = b from Option.some.inj h]
      exact List.mem_cons_self _ _

/-- The inverted dict COMMAND_ITEM_TYPES takes every command of
ITEM_TYPE_COMMANDS back to its item type (all commands are distinct). -/
lemma commandItemTypes_reverse (it : String) (cmd : ℕ)
    (h : ITEM_TYPE_COMMANDS.lookup it = some cmd) :
    COMMAND_ITEM_TYPES.lookup cmd = some it := by
  have hmem : (it, cmd) ∈ ITEM_TYPE_COMMANDS := mem_of_lookup_eq_some h
  fin_cases hmem <;> decide

lemma getD_range_map {α : Type} [Inhabited α] (g : ℕ → α) (n i : ℕ) (h : i < n) :
    ((List.range n).map g).getD i default = g i := by
  rw [List.getD_eq_getElem?_getD, List.getElem?_map, List.getElem?_range h]
  rfl

/-- Claim C3: for every waypoint list with item types from the enumerated
table, upload (answering MISSION_REQUEST(seq), 1 at most seq at most N, with
waypoint seq-1 scaled by 1e7) followed by download (dividing by 1e7 and
reversing the command) yields N items whose lat and lon are within 1e-7
degrees of the inputs and whose item type, altitude and params 1..4 are
preserved exactly. -/
theorem mission_roundtrip_contract (wps : List Waypoint)
    (hvalid : ∀ wp ∈ wps, (ITEM_TYPE_COMMANDS.lookup wp.itemType).isSome = true) :
    (roundTrip wps).length = wps.length
    ∧ ∀ i, i < wps.length →
        |((roundTrip wps).getD i default).lat - (wps.getD i default).lat| < 1 / 10000000
        ∧ |((roundTrip wps).getD i default).lon - (wps.getD i default).lon| < 1 / 10000000
        ∧ ((roundTrip wps).getD i default).alt = (wps.getD i default).alt
        ∧ ((roundTrip wps).getD i default).itemType = (wps.getD i default).itemType
        ∧ ((roundTrip wps).getD i default).param1 = (wps.getD i default).param1
        ∧ ((roundTrip wps).getD i default).param2 = (wps.getD i default).param2
        ∧ ((roundTrip wps).getD i default).param3 = (wps.getD i default).param3
        ∧ ((roundTrip wps).getD i default).param4 = (wps.getD i default).param4 := by
  constructor
  · unfold roundTrip
    simp
  · intro i hi
    have hitem : (roundTrip wps).getD i default
        = decodeMissionItem (sendMissionItem (i + 1) wps) := by
      unfold roundTrip
      exact getD_range_map _ _ _ hi
    have hwp : wps.getD i default ∈ wps := by
      rw [List.getD_eq_getElem?_getD, List.getElem?_eq_getElem hi, Option.getD_some]
      exact List.getElem_mem hi
    obtain ⟨cmd, hcmd⟩ := Option.isSome_iff_exists.mp (hvalid _ hwp)
    have hsend : sendMissionItem (i + 1) wps
        = { seq := i + 1, frame := 6, command := cmd, current := 0, autocontinue := 1,
            param1 := (wps.getD i default).param1,
            param2 := (wps.getD i default).param2,
            param3 := (wps.getD i default).param3,
            param4 := (wps.getD i default).param4,
            x := scaleCoord (wps.getD i default).lat,
            y := scaleCoord (wps.getD i default).lon,
            z := (wps.getD i default).alt } := by
      unfold sendMissionItem
      rw [if_neg (by omega)]
      simp only [Nat.add_sub_cancel, hcmd, Option.getD_some]
    rw [hitem, hsend]
    unfold decodeMissionItem
    refine ⟨scaleCoord_roundtrip _, scaleCoord_roundtrip _, rfl, ?_, rfl, rfl, rfl, rfl⟩
    simp only [commandItemTypes_reverse _ _ hcmd, Option.getD_some]

/-- Witness for C3: the spec scenario, one waypoint at (51.5, -0.1, 50) with
param2 = 2; the round trip returns it exactly (the scaling is exact here). -/
theorem mission_roundtrip_contract_witness :
    (roundTrip [{ lat := 515 / 10, lon := -1 / 10, alt := 50 }]).length = 1
    ∧ |((roundTrip [{ lat := 515 / 10, lon := -1 / 10, alt := 50 }]).getD 0 default).lat
        - (515 / 10 : ℚ)| < 1 / 10000000
    ∧ ((roundTrip [{ lat := 515 / 10, lon := -1 / 10, alt := 50 }]).getD 0 default).itemType
        = "waypoint"
    ∧ ((roundTrip [{ lat := 515 / 10, lon := -1 / 10, alt := 50 }]).getD 0 default).param2
        = 2 := by
  have h := mission_roundtrip_contract [{ lat := 515 / 10, lon := -1 / 10, alt := 50 }]
    (by intro wp hwp; fin_cases hwp; decide)
  obtain ⟨hlen, hall⟩ := h
  obtain ⟨hlat, _, _, hit, _, hp2, _, _⟩ := hall 0 (by norm_num)
  refine ⟨by simpa using hlen, by simpa using hlat, ?_, ?_⟩
  · rw [hit]; rfl
  · rw [hp2]; rfl

/-! Critical-parameter guard (claim C5), from main.py api_params_set. -/

/-- Python str.upper(), character by character. -/
def pyToUpper (s : String) : String := String.mk (s.data.map Char.toUpper)

/-- Python str.startswith(pre). -/
def pyStartsWith (s pre : String) : Bool := pre.data.isPrefixOf s.data

/-- CRITICAL_PARAM_PREFIXES (main.py lines 739-745). -/
def CRITICAL_PARAM_PREFIXES : List (String × String) :=
  [("BATT_", "battery"), ("FS_", "failsafe"), ("ARMING_", "arming checks"),
   ("MOT_", "motors"), ("INS_", "inertial sensors")]

/-- The response of the /api/params/set endpoint: its status string, the
category named in the confirm_required warning when one is raised, and the
PARAM_SET messages enqueued (param id, value, param type). -/
structure ParamSetResponse where
  status : String
  warningCategory : Option String := none
  emits : List (String × ℚ × ℕ) := []
deriving DecidableEq

/-- api_params_set (main.py lines 748-770).  The uppercased parameter id is
tested against the critical prefixes; a match without confirm returns
confirm_required naming the category and enqueues nothing.  Otherwise the
endpoint calls DroneConnection.set_param (drone.py lines 1200-1201), which
enqueues a PARAM_SET command and returns None; the following
"if not ok" check therefore always takes the error branch, so the endpoint
reports status error even though PARAM_SET was enqueued. -/
def apiParamsSet (connected : Bool) (paramId : String) (value : ℚ) (confirm : Bool) :
    ParamSetResponse :=
  if connected = false then { status := "error" }
  else
    match CRITICAL_PARAM_PREFIXES.find? (fun p => pyStartsWith (pyToUpper paramId) p.1) with
    | some pc =>
      if confirm = false then
        { status := "confirm_required", warningCategory := some pc.2 }
      else
        { status := "error", emits := [(paramId, value, 9)] }
    | none => { status := "error", emits := [(paramId, value, 9)] }

/-- Claim C5 (code bug): with confirm = false the BATT_ request returns
confirm_required naming the battery category and emits no PARAM_SET, exactly
as claimed; but with confirm = true the endpoint returns status error, not
ok, because DroneConnection.set_param returns None and the "if not ok" check
always fails - even though the PARAM_SET message was enqueued.  The ok branch
of the endpoint is unreachable. -/
theorem critical_param_guard_behavior :
    apiParamsSet true "BATT_CAPACITY" 5200 false
      = { status := "confirm_required", warningCategory := some "battery", emits := [] }
    ∧ apiParamsSet true "BATT_CAPACITY" 5200 true
      = { status := "error", warningCategory := none,
          emits := [("BATT_CAPACITY", 5200, 9)] }
    ∧ (apiParamsSet true "BATT_CAPACITY" 5200 true).status ≠ "ok"
    ∧ apiParamsSet true "WPNAV_SPEED" 500 false
      = { status := "error", warningCategory := none, emits := [("WPNAV_SPEED", 500, 9)] } := by
  refine ⟨?_, ?_, ?_, ?_⟩ <;> decide

/-! Vehicle capability profiles (claim C10), from vehicle_profiles.py. -/

/-- One capability profile (vehicle_profiles.py), with the profile_name the
reverse-map construction injects. -/
structure VehicleProfile where
  mavTypes : List ℤ
  category : String
  commands : List String
  hasAltitude : Bool
  hasDepth : Bool
  supportsTakeoff : Bool
  supportsVtol : Bool
  defaultAlt : Option ℚ := none
  defaultSpeed : ℚ
  profileName : String
deriving DecidableEq

/-- The copter profile (vehicle_profiles.py lines 9-19). -/
def copterProfile : VehicleProfile :=
  { mavTypes := [2, 3, 4, 13, 14, 15, 29, 35], category := "air",
    commands := ["arm", "disarm", "takeoff", "land", "rtl", "goto", "set_mode",
                 "mission_start", "mission_pause"],
    hasAltitude := true, hasDepth := false, supportsTakeoff := true,
    supportsVtol := true, defaultAlt := some 10, defaultSpeed := 5,
    profileName := "copter" }

/-- The plane profile (vehicle_profiles.py lines 20-30). -/
def planeProfile : VehicleProfile :=
  { mavTypes := [1], category := "air",
    commands := ["arm", "disarm", "takeoff", "land", "rtl", "goto", "set_mode",
                 "mission_start", "mission_pause"],
    hasAltitude := true, hasDepth := false, supportsTakeoff := true,
    supportsVtol := false, defaultAlt := some 50, defaultSpeed := 15,
    profileName := "plane" }

/-- The vtol profile (vehicle_profiles.py lines 31-41). -/
def vtolProfile : VehicleProfile :=
  { mavTypes := [19, 20, 21, 22, 23, 24, 25], category := "air",
    commands := ["arm", "disarm", "takeoff", "land", "rtl", "goto", "set_mode",
                 "mission_start", "mission_pause"],
    hasAltitude := true, hasDepth := false, supportsTakeoff := true,
    supportsVtol := true, defaultAlt := some 30, defaultSpeed := 12,
    profileName := "vtol" }

/-- The rover profile (vehicle_profiles.py lines 42-51). -/
def roverProfile : VehicleProfile :=
  { mavTypes := [10], category := "ground",
    commands := ["arm", "disarm", "rtl", "goto", "set_mode",
                 "mission_start", "mission_pause"],
    hasAltitude := false, hasDepth := false, supportsTakeoff := false,
    supportsVtol := false, defaultSpeed := 3, profileName := "rover" }

/-- The boat profile (vehicle_profiles.py lines 52-61). -/
def boatProfile : VehicleProfile :=
  { mavTypes := [11], category := "surface",
    commands := ["arm", "disarm", "rtl", "goto", "set_mode",
                 "mission_start", "mission_pause"],
    hasAltitude := false, hasDepth := false, supportsTakeoff := false,
    supportsVtol := false, defaultSpeed := 3, profileName := "boat" }

/-- The sub profile (vehicle_profiles.py lines 62-71). -/
def subProfile : VehicleProfile :=
  { mavTypes := [12], category := "underwater",
    commands := ["arm", "disarm", "goto", "set_mode",
                 "mission_start", "mission_pause"],
    hasAltitude := false, hasDepth := true, supportsTakeoff := false,
    supportsVtol := false, defaultSpeed := 1, profileName := "sub" }

/-- VEHICLE_PROFILES (vehicle_profiles.py lines 8-72). -/
def VEHICLE_PROFILES : List (String × VehicleProfile) :=
  [("copter", copterProfile), ("plane", planeProfile), ("vtol", vtolProfile),
   ("rover", roverProfile), ("boat", boatProfile), ("sub", subProfile)]

/-- The prebuilt reverse lookup _MAV_TYPE_TO_PROFILE
(vehicle_profiles.py lines 75-79). -/
def MAV_TYPE_TO_PROFILE : List (ℤ × VehicleProfile) :=
  VEHICLE_PROFILES.flatMap (fun p => p.2.mavTypes.map (fun mt => (mt, p.2)))

/-- get_profile (vehicle_profiles.py lines 85-90): reverse-map lookup with
the copter profile as fallback. -/
def get_profile (mavType : ℤ) : VehicleProfile :=
  (MAV_TYPE_TO_PROFILE.lookup mavType).getD copterProfile

/-- Modelled from the spec: DroneConnection.vehicle_profile is read by
api_takeoff (main.py line 433) but its definition is not among the sources
under src/; per the spec (section 3, Vehicle profile) it is the static
capability lookup keyed by the mav_type of the connected vehicle. -/
def vehicleProfile (mavType : ℤ) : VehicleProfile := get_profile mavType

/-- The takeoff support gate of api_takeoff (main.py lines 428-439): the
endpoint rejects with "Vehicle type does not support takeoff" exactly when
profile.get("supports_takeoff", True) is falsy. -/
def apiTakeoffRejectsUnsupported (mavType : ℤ) : Bool :=
  !(vehicleProfile mavType).supportsTakeoff

lemma mavTypeToProfile_names :
    ∀ p ∈ MAV_TYPE_TO_PROFILE,
      p.2.profileName ∈ ["copter", "plane", "vtol", "rover", "boat", "sub"] := by
  decide

/-- Claim C10: get_profile is total over the integers, always yielding one of
the six named profiles; any mav_type outside the reverse map falls back to
the copter profile with category air and supports_takeoff true, so the
takeoff endpoint gate never rejects an unrecognized mav_type for lacking
takeoff support. -/
theorem get_profile_total_with_copter_fallback (mavType : ℤ) :
    (get_profile mavType).profileName ∈ ["copter", "plane", "vtol", "rover", "boat", "sub"]
    ∧ (mavType ∉ MAV_TYPE_TO_PROFILE.map Prod.fst →
        get_profile mavType = copterProfile
        ∧ (get_profile mavType).category = "air"
        ∧ (get_profile mavType).supportsTakeoff = true
        ∧ apiTakeoffRejectsUnsupported mavType = false) := by
  constructor
  · unfold get_profile
    cases hl : MAV_TYPE_TO_PROFILE.lookup mavType with
    | none => simp [copterProfile]
    | some p =>
      have hmem := mem_of_lookup_eq_some hl
      simpa using mavTypeToProfile_names (mavType, p) hmem
  · intro h
    have hnone : MAV_TYPE_TO_PROFILE.lookup mavType = none := by
      apply lookup_eq_none_of_forall
      intro p hp hpk
      exact h (hpk ▸ List.mem_map_of_mem Prod.fst hp)
    have hfall : get_profile mavType = copterProfile := by
      unfold get_profile
      rw [hnone]
      rfl
    refine ⟨hfall, by rw [hfall]; rfl, by rw [hfall]; rfl, ?_⟩
    unfold apiTakeoffRejectsUnsupported vehicleProfile
    rw [hfall]
    rfl

/-- Witness for C10: mav_type 99 is in no profile; it gets the copter profile
and the takeoff gate does not reject it. -/
theorem get_profile_total_with_copter_fallback_witness :
    get_profile 99 = copterProfile ∧ apiTakeoffRejectsUnsupported 99 = false := by
  have h := (get_profile_total_with_copter_fallback 99).2 (by decide)
  exact ⟨h.1, h.2.2.2⟩

/-! Telemetry generation counter (claim C7). -/

/-- MAV_TYPES (drone.py lines 29-73). -/
def MAV_TYPES : List (ℕ × String) :=
  [(0, "Generic"), (1, "Fixed Wing"), (2, "Quadrotor"), (3, "Coaxial"),
   (4, "Helicopter"), (5, "Antenna Tracker"), (6, "GCS"), (7, "Airship"),
   (8, "Free Balloon"), (9, "Rocket"), (10, "Ground Rover"), (11, "Surface Boat"),
   (12, "Submarine"), (13, "Hexarotor"), (14, "Octorotor"), (15, "Tricopter"),
   (16, "Flapping Wing"), (17, "Kite"), (18, "Companion Computer"),
   (19, "VTOL Tiltrotor"), (20, "VTOL Duo"), (21, "VTOL Quad"),
   (22, "VTOL Tailsitter"), (23, "VTOL Reserved"), (24, "VTOL Reserved"),
   (25, "VTOL Reserved"), (26, "Gimbal"), (27, "ADSB"), (28, "Parafoil"),
   (29, "Dodecarotor"), (30, "Camera"), (31, "Charging Station"), (32, "FLARM"),
   (33, "Servo"), (34, "ODID"), (35, "Decarotor"), (36, "Battery"),
   (37, "Parachute"), (38, "Log"), (39, "OSD"), (40, "IMU"), (41, "GPS"),
   (42, "Winch")]

/-- The telemetry snapshot fields of TelemetryState (drone.py lines 76-119),
plus the telemetry_generation counter the spec attaches to the Vehicle. -/
structure VehicleTelemetryState where
  roll : ℚ := 0
  pitch : ℚ := 0
  yaw : ℚ := 0
  rollspeed : ℚ := 0
  pitchspeed : ℚ := 0
  yawspeed : ℚ := 0
  lat : ℚ := 0
  lon : ℚ := 0
  alt : ℚ := 0
  altMsl : ℚ := 0
  airspeed : ℚ := 0
  groundspeed : ℚ := 0
  climb : ℚ := 0
  heading : ℤ := 0
  voltage : ℚ := 0
  current : ℚ := 0
  remaining : ℤ := -1
  fixType : ℕ := 0
  satellites : ℕ := 0
  hdop : ℚ := 9999 / 100
  armed : Bool := false
  mode : String := ""
  systemStatus : ℕ := 0
  missionSeq : ℤ := -1
  platformType : String := "Unknown"
  lastHeartbeat : ℚ := 0
  telemetryGeneration : ℕ := 0
deriving DecidableEq

/-- A telemetry-bearing message from the connected target, with the payload
fields _handle_message reads (drone.py lines 965-1031).  The heartbeat
carries its arrival time for the last_heartbeat field. -/
inductive TelemetryMsg
  | heartbeat (now : ℚ) (isArdupilot : Bool) (mavType : ℕ)
      (baseMode customMode systemStatus : ℕ)
  | attitude (roll pitch yaw rollspeed pitchspeed yawspeed : ℚ)
  | globalPositionInt (lat lon alt relativeAlt : ℤ)
  | gpsRawInt (fixType satellites eph : ℕ)
  | vfrHud (airspeed groundspeed : ℚ) (heading : ℤ) (climb : ℚ)
  | sysStatus (voltageBattery : ℕ) (currentBattery batteryRemaining : ℤ)
  | missionCurrent (seq : ℕ)
deriving DecidableEq

/-- Modelled from the spec: the telemetry_generation counter consulted by the
broadcaster (main.py line 246, drone.telemetry_generation) has no definition
among the sources under src/ - DroneConnection in src/backend/drone.py lacks
the attribute.  The spec (section 3) specifies a monotonically increasing
counter bumped on every field update.  The telemetry field updates below
follow _handle_message (drone.py lines 965-1031) for messages from the
connected target; the generation bump is the spec-modelled part, one bump per
telemetry-updating message. -/
def handleTelemetryMsg (s : VehicleTelemetryState) : TelemetryMsg → VehicleTelemetryState
  | .heartbeat now isArdupilot mavType baseMode customMode systemStatus =>
    { s with
      armed := heartbeatArmed baseMode,
      systemStatus := systemStatus,
      lastHeartbeat := now,
      platformType := (MAV_TYPES.lookup mavType).getD ("Type " ++ toString mavType),
      mode := if isArdupilot then decodeArdupilotMode mavType customMode
              else decodePX4Mode customMode,
      telemetryGeneration := s.telemetryGeneration + 1 }
  | .attitude roll pitch yaw rollspeed pitchspeed yawspeed =>
    { s with roll := roll, pitch := pitch, yaw := yaw, rollspeed := rollspeed,
             pitchspeed := pitchspeed, yawspeed := yawspeed,
             telemetryGeneration := s.telemetryGeneration + 1 }
  | .globalPositionInt lat lon alt relativeAlt =>
    { s with lat := (lat : ℚ) / 10000000, lon := (lon : ℚ) / 10000000,
             alt := (relativeAlt : ℚ) / 1000, altMsl := (alt : ℚ) / 1000,
             telemetryGeneration := s.telemetryGeneration + 1 }
  | .gpsRawInt fixType satellites eph =>
    { s with fixType := fixType, satellites := satellites,
             hdop := if eph ≠ 65535 then (eph : ℚ) / 100 else 9999 / 100,
             telemetryGeneration := s.telemetryGeneration + 1 }
  | .vfrHud airspeed groundspeed heading climb =>
    { s with airspeed := airspeed, groundspeed := groundspeed,
             heading := heading, climb := climb,
             telemetryGeneration := s.telemetryGeneration + 1 }
  | .sysStatus voltageBattery currentBattery batteryRemaining =>
    { s with voltage := (voltageBattery : ℚ) / 1000,
             current := if currentBattery ≠ -1 then (currentBattery : ℚ) / 100 else 0,
             remaining := batteryRemaining,
             telemetryGeneration := s.telemetryGeneration + 1 }
  | .missionCurrent seq =>
    { s with missionSeq := (seq : ℤ),
             telemetryGeneration := s.telemetryGeneration + 1 }

lemma handleTelemetryMsg_gen (s : VehicleTelemetryState) (m : TelemetryMsg) :
    (handleTelemetryMsg s m).telemetryGeneration = s.telemetryGeneration + 1 := by
  cases m <;> rfl

lemma foldl_gen_le (s : VehicleTelemetryState) (msgs : List TelemetryMsg) :
    s.telemetryGeneration ≤ (msgs.foldl handleTelemetryMsg s).telemetryGeneration := by
  induction msgs generalizing s with
  | nil => exact le_rfl
  | cons m rest ih =>
    calc s.telemetryGeneration
        ≤ (handleTelemetryMsg s m).telemetryGeneration := by
          rw [handleTelemetryMsg_gen]; omega
      _ ≤ (rest.foldl handleTelemetryMsg (handleTelemetryMsg s m)).telemetryGeneration :=
          ih (handleTelemetryMsg s m)

/-- Claim C7 (spec-modelled): every telemetry update bumps the generation
counter, so across any observation window the counter is monotonically
non-decreasing: a read after processing msgs is at least the starting value,
and any later read (after processing additional messages) is at least the
earlier read - two consecutive reads r1 then r2 always satisfy r1 at most
r2. -/
theorem telemetry_generation_monotone (s : VehicleTelemetryState)
    (msgs more : List TelemetryMsg) :
    s.telemetryGeneration ≤ (msgs.foldl handleTelemetryMsg s).telemetryGeneration
    ∧ (msgs.foldl handleTelemetryMsg s).telemetryGeneration
        ≤ ((msgs ++ more).foldl handleTelemetryMsg s).telemetryGeneration
    ∧ (msgs.foldl handleTelemetryMsg s).telemetryGeneration
        = s.telemetryGeneration + msgs.length := by
  refine ⟨foldl_gen_le s msgs, ?_, ?_⟩
  · rw [List.foldl_append]
    exact foldl_gen_le _ more
  · induction msgs generalizing s with
    | nil => simp
    | cons m rest ih =>
      rw [List.foldl_cons, ih (handleTelemetryMsg s m), handleTelemetryMsg_gen]
      simp only [List.length_cons]
      omega

/-! Status-text ring (claim C9), from drone.py _handle_message. -/

/-- One entry of the status-text ring. -/
structure StatusEntry where
  severity : ℕ
  text : String
  time : ℚ
deriving DecidableEq

/-- The reversed-order duplicate scan of the STATUSTEXT handler
(drone.py lines 896-900): walk newest to oldest, stop at the first entry
older than 1 second, report a duplicate when text and severity match. -/
def dupScan (now : ℚ) (severity : ℕ) (text : String) : List StatusEntry → Bool
  | [] => false
  | e :: rest =>
    if 1 < now - e.time then false
    else if e.text = text ∧ e.severity = severity then true
    else dupScan now severity text rest

/-- The STATUSTEXT branch (drone.py lines 889-909): skip when the reversed
scan finds a duplicate inside the 1 second window, otherwise append and keep
only the most recent 100 entries. -/
def appendStatusText (q : List StatusEntry) (now : ℚ) (severity : ℕ) (text : String) :
    List StatusEntry :=
  if dupScan now severity text q.reverse then q
  else if 100 < (q ++ [({ severity := severity, text := text, time := now } : StatusEntry)]).length then
    (q ++ [({ severity := severity, text := text, time := now } : StatusEntry)]).drop
      ((q ++ [({ severity := severity, text := text, time := now } : StatusEntry)]).length - 100)
  else q ++ [({ severity := severity, text := text, time := now } : StatusEntry)]

/-- The calibration result table of the COMMAND_ACK(241) branch
(drone.py lines 919-928). -/
def calibrationResultText (result : ℕ) : String × ℕ :=
  (([(0, ("Calibration accepted", 6)),
     (1, ("Calibration temporarily rejected - try again", 4)),
     (2, ("Calibration denied", 3)), (3, ("Calibration unsupported", 4)),
     (4, ("Calibration failed", 3)), (5, ("Calibration in progress", 6)),
     (6, ("Calibration cancelled", 4))] : List (ℕ × String × ℕ)).lookup result).getD
    ("Calibration result: " ++ toString result, 4)

/-- The COMMAND_ACK(241) branch (drone.py lines 911-935): the synthesized
status text is appended unconditionally - no duplicate suppression and no
100-entry truncation. -/
def appendCalibrationAck (q : List StatusEntry) (now : ℚ) (result : ℕ) :
    List StatusEntry :=
  q ++ [{ severity := (calibrationResultText result).2,
          text := (calibrationResultText result).1, time := now }]

/-- The ring after n calibration ACKs at time 0 with result 0, starting
empty. -/
def ackRing (n : ℕ) : List StatusEntry :=
  (List.range n).foldl (fun q _ => appendCalibrationAck q 0 0) []

lemma appendCalibrationAck_length (q : List StatusEntry) (now : ℚ) (result : ℕ) :
    (appendCalibrationAck q now result).length = q.length + 1 := by
  simp [appendCalibrationAck]

lemma ackRing_length (n : ℕ) : (ackRing n).length = n := by
  induction n with
  | zero => rfl
  | succ n ih =>
    have h : ackRing (n + 1) = appendCalibrationAck (ackRing n) 0 0 := by
      unfold ackRing
      rw [List.range_succ, List.foldl_append]
      rfl
    rw [h, appendCalibrationAck_length, ih]

/-- Counterexample to claim C9: the COMMAND_ACK(241) path appends with no cap
and no duplicate suppression.  After 101 calibration ACKs the ring holds 101
entries (above the claimed 100 bound), and two identical (severity, text)
entries half a second apart are both enqueued. -/
theorem statustext_ring_counterexample :
    (ackRing 101).length = 101
    ∧ 100 < (ackRing 101).length
    ∧ appendCalibrationAck (appendCalibrationAck ([] : List StatusEntry) 0 0) (1 / 2) 0
      = [{ severity := 6, text := "Calibration accepted", time := 0 },
         { severity := 6, text := "Calibration accepted", time := 1 / 2 }] := by
  refine ⟨ackRing_length 101, ?_, rfl⟩
  rw [ackRing_length 101]
  norm_num

/-- Claim C9 as amended: the 100-entry bound and the 1-second duplicate
suppression hold on the STATUSTEXT path (the bound provided the ring was
within bound before), but the COMMAND_ACK(241) path appends unconditionally:
no suppression and no truncation, so it grows the ring by one entry every
time. -/
theorem statustext_ring_amended (q : List StatusEntry) (now : ℚ) (severity : ℕ)
    (text : String) (result : ℕ) :
    (q.length ≤ 100 → (appendStatusText q now severity text).length ≤ 100)
    ∧ (dupScan now severity text q.reverse = true →
        appendStatusText q now severity text = q)
    ∧ (dupScan now severity text q.reverse = false →
        (appendStatusText q now severity text).length = min (q.length + 1) 100
        ∧ ({ severity := severity, text := text, time := now } : StatusEntry)
            ∈ appendStatusText q now severity text)
    ∧ (appendCalibrationAck q now result).length = q.length + 1 := by
  refine ⟨?_, ?_, ?_, appendCalibrationAck_length q now result⟩
  · intro hlen
    unfold appendStatusText
    split
    · exact hlen
    · split
      · rename_i hbig
        rw [List.length_drop]
        omega
      · rename_i hsmall
        simp only [List.length_append, List.length_singleton] at hsmall ⊢
        omega
  · intro h
    unfold appendStatusText
    rw [if_pos h]
  · intro h
    unfold appendStatusText
    rw [if_neg (by rw [h]; exact Bool.false_ne_true)]
    constructor
    · split
      · rename_i hbig
        rw [List.length_drop]
        simp only [List.length_append, List.length_singleton] at hbig ⊢
        omega
      · rename_i hsmall
        simp only [List.length_append, List.length_singleton] at hsmall ⊢
        omega
    · split
      · rename_i hbig
        simp only [List.length_append, List.length_singleton] at hbig
        have hle : (q ++ [({ severity := severity, text := text, time := now } : StatusEntry)]).length - 100
            ≤ q.length := by
          simp only [List.length_append, List.length_singleton]
          omega
        rw [List.drop_append_of_le_length hle]
        exact List.mem_append_right _ (by simp)
      · exact List.mem_append_right _ (by simp)

/-- Witness for the amended C9: a duplicate text within the window is
dropped, and one calibration ACK grows an empty ring to one entry. -/
theorem statustext_ring_amended_witness :
    appendStatusText [{ severity := 6, text := "hello", time := 0 }] (1 / 2) 6 "hello"
      = [{ severity := 6, text := "hello", time := 0 }]
    ∧ (appendCalibrationAck [] 0 0).length = 0 + 1 := by
  refine ⟨(statustext_ring_amended [{ severity := 6, text := "hello", time := 0 }]
      (1 / 2) 6 "hello" 0).2.1 ?_,
    (statustext_ring_amended [] 0 6 "hello" 0).2.2.2⟩
  norm_num [dupScan]

/-! Telemetry broadcast payloads (claim C8), from main.py telemetry_broadcast. -/

/-- A JSON-serializable telemetry value. -/
inductive TVal
  | num (q : ℚ)
  | str (s : String)
  | bool (b : Bool)
  | texts (msgs : List StatusEntry)
deriving DecidableEq

/-- Python dict assignment message[k] = v on an insertion-ordered dict:
replace in place when the key exists, append otherwise. -/
def dictSet (d : List (String × TVal)) (k : String) (v : TVal) : List (String × TVal) :=
  if d.any (fun p => p.1 == k) then d.map (fun p => bif p.1 == k then (k, v) else p)
  else d ++ [(k, v)]

/-- ALWAYS_KEYS (main.py line 217). -/
def ALWAYS_KEYS : List String := ["type", "drone_id", "drone_name"]

/-- The per-field test of the delta loop (main.py lines 270-274): skip the
envelope keys, keep a field when the previous snapshot holds a different
value (or no value) for it. -/
def deltaPred (prevSnap : List (String × TVal)) (kv : String × TVal) : Bool :=
  !(ALWAYS_KEYS.contains kv.1) && decide (prevSnap.lookup kv.1 ≠ some kv.2)

/-- The delta loop (main.py lines 269-274). -/
def deltaFields (telemetry prevSnap : List (String × TVal)) : List (String × TVal) :=
  telemetry.filter (deltaPred prevSnap)

/-- The delta message before the envelope, including the mission_status key
added when the mission status changed (main.py lines 276-277). -/
def deltaWithMission (telemetry prevSnap : List (String × TVal))
    (missionChanged : Bool) (missionStatus : String) : List (String × TVal) :=
  if missionChanged then
    dictSet (deltaFields telemetry prevSnap) "mission_status" (TVal.str missionStatus)
  else deltaFields telemetry prevSnap

/-- The envelope attachment (main.py lines 285-293): type, drone_id,
drone_name and mission_status are always set; statustext only when status
texts were drained. -/
def attachEnvelope (m : List (String × TVal)) (droneId droneName missionStatus : String)
    (statusMsgs : List StatusEntry) : List (String × TVal) :=
  if statusMsgs.isEmpty then
    dictSet (dictSet (dictSet (dictSet m "type" (TVal.str "telemetry"))
      "drone_id" (TVal.str droneId)) "drone_name" (TVal.str droneName))
      "mission_status" (TVal.str missionStatus)
  else
    dictSet (dictSet (dictSet (dictSet (dictSet m "type" (TVal.str "telemetry"))
      "drone_id" (TVal.str droneId)) "drone_name" (TVal.str droneName))
      "mission_status" (TVal.str missionStatus)) "statustext" (TVal.texts statusMsgs)

/-- The message construction of one broadcast round for one drone
(main.py lines 259-295): a full snapshot (with _full) when forcing full or
when there is no previous snapshot; otherwise the delta, skipped (none) when
it is empty and no status text is pending. -/
def buildBroadcastMessage (telemetry prevSnap : List (String × TVal))
    (forceFull missionChanged : Bool) (missionStatus droneId droneName : String)
    (statusMsgs : List StatusEntry) : Option (List (String × TVal)) :=
  if forceFull || prevSnap.isEmpty then
    some (attachEnvelope (telemetry ++ [("_full", TVal.bool true)]) droneId droneName
      missionStatus statusMsgs)
  else if (deltaWithMission telemetry prevSnap missionChanged missionStatus).isEmpty
      && statusMsgs.isEmpty then
    none
  else
    some (attachEnvelope (deltaWithMission telemetry prevSnap missionChanged missionStatus)
      droneId droneName missionStatus statusMsgs)

lemma lookup_cons (a : String) (p : String × TVal) (rest : List (String × TVal)) :
    List.lookup a (p :: rest) = bif a == p.1 then some p.2 else List.lookup a rest := by
  obtain ⟨x, y⟩ := p
  rfl

lemma lookup_map_replace (d : List (String × TVal)) (k : String) (v : TVal)
    (h : d.any (fun p => p.1 == k) = true) :
    (d.map (fun p => bif p.1 == k then (k, v) else p)).lookup k = some v := by
  induction d with
  | nil => simp at h
  | cons p rest ih =>
    by_cases hpk : p.1 = k
    · have hb : (p.1 == k) = true := by simp [hpk]
      simp only [List.map_cons, hb, Bool.cond_true, lookup_cons, beq_self_eq_true]
    · have hb : (p.1 == k) = false := by simp [hpk]
      have hany : rest.any (fun p => p.1 == k) = true := by
        simp only [List.any_cons, hb, Bool.false_or] at h
        exact h
      have hkp : (k == p.1) = false := by simp [Ne.symm hpk]
      simp only [List.map_cons, hb, Bool.cond_false, lookup_cons, hkp]
      exact ih hany

lemma lookup_map_replace_ne (d : List (String × TVal)) (k k0 : String) (v : TVal)
    (h : k0 ≠ k) :
    (d.map (fun p => bif p.1 == k then (k, v) else p)).lookup k0 = d.lookup k0 := by
  induction d with
  | nil => rfl
  | cons p rest ih =>
    by_cases hpk : p.1 = k
    · have hb : (p.1 == k) = true := by simp [hpk]
      have hk0k : (k0 == k) = false := by simp [h]
      have hk0p : (k0 == p.1) = false := by simp [hpk, h]
      simp only [List.map_cons, hb, Bool.cond_true, lookup_cons, hk0k, hk0p, Bool.cond_false]
      exact ih
    · have hb : (p.1 == k) = false := by simp [hpk]
      simp only [List.map_cons, hb, Bool.cond_false, lookup_cons]
      cases hk0p : k0 == p.1 with
      | true => rfl
      | false => exact ih

lemma lookup_append_single_of_forall (d : List (String × TVal)) (k : String) (v : TVal)
    (hall : ∀ p ∈ d, (p.1 == k) = false) :
    (d ++ [(k, v)]).lookup k = some v := by
  induction d with
  | nil => simp [lookup_cons]
  | cons p rest ih =>
    have hkp : (k == p.1) = false := by
      have := hall p (List.mem_cons_self _ _)
      simp only [beq_eq_false_iff_ne] at this ⊢
      exact Ne.symm this
    rw [List.cons_append, lookup_cons, hkp, Bool.cond_false]
    exact ih (fun q hq => hall q (List.mem_cons_of_mem _ hq))

lemma lookup_append_single_ne (d : List (String × TVal)) (k k0 : String) (v : TVal)
    (h : k0 ≠ k) : (d ++ [(k, v)]).lookup k0 = d.lookup k0 := by
  induction d with
  | nil =>
    have hk : (k0 == k) = false := by simp [h]
    simp [lookup_cons, hk]
  | cons p rest ih =>
    rw [List.cons_append, lookup_cons, lookup_cons]
    cases hk0p : k0 == p.1 with
    | true => rfl
    | false =>
      simp only [Bool.cond_false]
      exact ih

lemma lookup_dictSet_self (d : List (String × TVal)) (k : String) (v : TVal) :
    (dictSet d k v).lookup k = some v := by
  unfold dictSet
  split
  · exact lookup_map_replace d k v (by assumption)
  · rename_i h
    apply lookup_append_single_of_forall
    intro p hp
    by_contra hc
    exact h (List.any_eq_true.mpr ⟨p, hp, by simpa using hc⟩)

lemma lookup_dictSet_ne (d : List (String × TVal)) (k k0 : String) (v : TVal)
    (h : k0 ≠ k) : (dictSet d k v).lookup k0 = d.lookup k0 := by
  unfold dictSet
  split
  · exact lookup_map_replace_ne d k k0 v h
  · exact lookup_append_single_ne d k k0 v h

/-- Every envelope field is present with its value after attachment. -/
lemma attachEnvelope_lookup (m : List (String × TVal)) (dI dN ms : String)
    (msgs : List StatusEntry) :
    (attachEnvelope m dI dN ms msgs).lookup "type" = some (TVal.str "telemetry")
    ∧ (attachEnvelope m dI dN ms msgs).lookup "drone_id" = some (TVal.str dI)
    ∧ (attachEnvelope m dI dN ms msgs).lookup "drone_name" = some (TVal.str dN)
    ∧ (attachEnvelope m dI dN ms msgs).lookup "mission_status" = some (TVal.str ms) := by
  unfold attachEnvelope
  split
  · refine ⟨?_, ?_, ?_, ?_⟩
    · rw [lookup_dictSet_ne _ _ _ _ (by decide), lookup_dictSet_ne _ _ _ _ (by decide),
        lookup_dictSet_ne _ _ _ _ (by decide), lookup_dictSet_self]
    · rw [lookup_dictSet_ne _ _ _ _ (by decide), lookup_dictSet_ne _ _ _ _ (by decide),
        lookup_dictSet_self]
    · rw [lookup_dictSet_ne _ _ _ _ (by decide), lookup_dictSet_self]
    · rw [lookup_dictSet_self]
  · refine ⟨?_, ?_, ?_, ?_⟩
    · rw [lookup_dictSet_ne _ _ _ _ (by decide), lookup_dictSet_ne _ _ _ _ (by decide),
        lookup_dictSet_ne _ _ _ _ (by decide), lookup_dictSet_ne _ _ _ _ (by decide),
        lookup_dictSet_self]
    · rw [lookup_dictSet_ne _ _ _ _ (by decide), lookup_dictSet_ne _ _ _ _ (by decide),
        lookup_dictSet_ne _ _ _ _ (by decide), lookup_dictSet_self]
    · rw [lookup_dictSet_ne _ _ _ _ (by decide), lookup_dictSet_ne _ _ _ _ (by decide),
        lookup_dictSet_self]
    · rw [lookup_dictSet_ne _ _ _ _ (by decide), lookup_dictSet_self]

lemma filter_eq_nil_of_forall {α : Type} (p : α → Bool) (l : List α)
    (h : ∀ a ∈ l, p a = false) : l.filter p = [] := by
  induction l with
  | nil => rfl
  | cons a rest ih =>
    rw [List.filter_cons, h a (List.mem_cons_self _ _)]
    simp only [Bool.false_eq_true, if_false]
    exact ih (fun b hb => h b (List.mem_cons_of_mem _ hb))

/-- When exactly the voltage entry differs from the previous snapshot, the
delta is that single entry. -/
lemma deltaFields_single (telemetry prevSnap : List (String × TVal)) (vv : TVal)
    (hnodup : (telemetry.map Prod.fst).Nodup)
    (hnotalways : ∀ kv ∈ telemetry, ALWAYS_KEYS.contains kv.1 = false)
    (hvolt : ("voltage", vv) ∈ telemetry)
    (hagree : ∀ kv ∈ telemetry, kv.1 ≠ "voltage" → prevSnap.lookup kv.1 = some kv.2)
    (hdiff : prevSnap.lookup "voltage" ≠ some vv) :
    deltaFields telemetry prevSnap = [("voltage", vv)] := by
  revert hnodup hnotalways hvolt hagree
  induction telemetry with
  | nil =>
    intro _ _ hvolt _
    simp at hvolt
  | cons kv rest ih =>
    intro hnodup hnotalways hvolt hagree
    have hnodup2 : (rest.map Prod.fst).Nodup := by
      simp only [List.map_cons, List.nodup_cons] at hnodup
      exact hnodup.2
    have hhead : kv.1 ∉ rest.map Prod.fst := by
      simp only [List.map_cons, List.nodup_cons] at hnodup
      exact hnodup.1
    rcases List.mem_cons.mp hvolt with heq | hmem
    · have hpred : deltaPred prevSnap kv = true := by
        unfold deltaPred
        rw [hnotalways kv (List.mem_cons_self _ _)]
        rw [← heq]
        simpa using hdiff
      have hrest : rest.filter (deltaPred prevSnap) = [] := by
        apply filter_eq_nil_of_forall
        intro kv2 hkv2
        have hne : kv2.1 ≠ "voltage" := by
          intro hc
          apply hhead
          have h1 : kv2.1 ∈ rest.map Prod.fst := List.mem_map_of_mem Prod.fst hkv2
          rw [hc] at h1
          have h2 : kv.1 = "voltage" := by rw [← heq]
          rw [h2]
          exact h1
        unfold deltaPred
        rw [hagree kv2 (List.mem_cons_of_mem _ hkv2) hne]
        simp
      unfold deltaFields
      rw [List.filter_cons, hpred]
      simp only [if_true]
      rw [hrest, ← heq]
    · have hne : kv.1 ≠ "voltage" := by
        intro hc
        apply hhead
        rw [hc]
        exact List.mem_map_of_mem Prod.fst hmem
      have hpredf : deltaPred prevSnap kv = false := by
        unfold deltaPred
        rw [hagree kv (List.mem_cons_self _ _) hne]
        simp
      unfold deltaFields
      rw [List.filter_cons, hpredf]
      simp only [Bool.false_eq_true, if_false]
      exact ih hnodup2 (fun kv2 h2 => hnotalways kv2 (List.mem_cons_of_mem _ h2)) hmem
        (fun kv2 h2 hn2 => hagree kv2 (List.mem_cons_of_mem _ h2) hn2)

/-- The keys of the voltage-only delta payload, in insertion order. -/
lemma attachEnvelope_voltage_keys (vv : TVal) (dI dN ms : String) :
    (attachEnvelope [("voltage", vv)] dI dN ms []).map Prod.fst
      = ["voltage", "type", "drone_id", "drone_name", "mission_status"] := rfl

/-- Claim C8 as amended (drone_id in place of the claimed vehicle_id key):
every message the broadcaster emits carries the envelope entries
type = "telemetry", drone_id, drone_name and mission_status; and after a full
snapshot, an update differing only in voltage yields a delta payload whose
keys are exactly voltage plus those four envelope keys - no "vehicle_id" key
exists. -/
theorem telemetry_envelope_amended
    (telemetry prevSnap : List (String × TVal)) (forceFull missionChanged : Bool)
    (missionStatus droneId droneName : String) (statusMsgs : List StatusEntry)
    (vv : TVal) :
    (∀ msg, buildBroadcastMessage telemetry prevSnap forceFull missionChanged
        missionStatus droneId droneName statusMsgs = some msg →
      msg.lookup "type" = some (TVal.str "telemetry")
      ∧ msg.lookup "drone_id" = some (TVal.str droneId)
      ∧ msg.lookup "drone_name" = some (TVal.str droneName)
      ∧ msg.lookup "mission_status" = some (TVal.str missionStatus))
    ∧ ((telemetry.map Prod.fst).Nodup →
        (∀ kv ∈ telemetry, ALWAYS_KEYS.contains kv.1 = false) →
        ("voltage", vv) ∈ telemetry →
        (∀ kv ∈ telemetry, kv.1 ≠ "voltage" → prevSnap.lookup kv.1 = some kv.2) →
        prevSnap.lookup "voltage" ≠ some vv →
        forceFull = false → prevSnap.isEmpty = false → missionChanged = false →
        statusMsgs = [] →
        buildBroadcastMessage telemetry prevSnap forceFull missionChanged
            missionStatus droneId droneName statusMsgs
          = some (attachEnvelope [("voltage", vv)] droneId droneName missionStatus [])
        ∧ (attachEnvelope [("voltage", vv)] droneId droneName missionStatus []).map Prod.fst
          = ["voltage", "type", "drone_id", "drone_name", "mission_status"]) := by
  constructor
  · intro msg hmsg
    unfold buildBroadcastMessage at hmsg
    split at hmsg
    · rw [Option.some.injEq] at hmsg
      rw [← hmsg]
      exact attachEnvelope_lookup _ _ _ _ _
    · split at hmsg
      · simp at hmsg
      · rw [Option.some.injEq] at hmsg
        rw [← hmsg]
        exact attachEnvelope_lookup _ _ _ _ _
  · intro hnodup hnotalways hvolt hagree hdiff hff hprev hmc hsm
    have hdelta := deltaFields_single telemetry prevSnap vv hnodup hnotalways hvolt hagree hdiff
    have hdwm : deltaWithMission telemetry prevSnap missionChanged missionStatus
        = [("voltage", vv)] := by
      unfold deltaWithMission
      rw [hmc, if_neg (by simp), hdelta]
    constructor
    · unfold buildBroadcastMessage
      rw [hff, hprev, hsm, hdwm]
      rfl
    · exact attachEnvelope_voltage_keys vv droneId droneName missionStatus

/-- The 27 keys of TelemetryState.to_dict (drone.py lines 121-151), as a
previous full snapshot with concrete values. -/
def exPrevSnap : List (String × TVal) :=
  [("roll", TVal.num 0), ("pitch", TVal.num 0), ("yaw", TVal.num 0),
   ("rollspeed", TVal.num 0), ("pitchspeed", TVal.num 0), ("yawspeed", TVal.num 0),
   ("lat", TVal.num 47), ("lon", TVal.num 8), ("alt", TVal.num 50),
   ("alt_msl", TVal.num 500), ("airspeed", TVal.num 0), ("groundspeed", TVal.num 0),
   ("climb", TVal.num 0), ("heading", TVal.num 90), ("voltage", TVal.num 12),
   ("current", TVal.num 3), ("remaining", TVal.num 80), ("fix_type", TVal.num 3),
   ("satellites", TVal.num 10), ("hdop", TVal.num 1), ("armed", TVal.bool true),
   ("mode", TVal.str "GUIDED"), ("system_status", TVal.num 4),
   ("autopilot", TVal.str "ardupilot"), ("mission_seq", TVal.num 2),
   ("platform_type", TVal.str "Quadrotor"), ("heartbeat_age", TVal.num 0)]

/-- The subsequent snapshot: identical except the voltage dropped to 11. -/
def exTelemetry : List (String × TVal) :=
  [("roll", TVal.num 0), ("pitch", TVal.num 0), ("yaw", TVal.num 0),
   ("rollspeed", TVal.num 0), ("pitchspeed", TVal.num 0), ("yawspeed", TVal.num 0),
   ("lat", TVal.num 47), ("lon", TVal.num 8), ("alt", TVal.num 50),
   ("alt_msl", TVal.num 500), ("airspeed", TVal.num 0), ("groundspeed", TVal.num 0),
   ("climb", TVal.num 0), ("heading", TVal.num 90), ("voltage", TVal.num 11),
   ("current", TVal.num 3), ("remaining", TVal.num 80), ("fix_type", TVal.num 3),
   ("satellites", TVal.num 10), ("hdop", TVal.num 1), ("armed", TVal.bool true),
   ("mode", TVal.str "GUIDED"), ("system_status", TVal.num 4),
   ("autopilot", TVal.str "ardupilot"), ("mission_seq", TVal.num 2),
   ("platform_type", TVal.str "Quadrotor"), ("heartbeat_age", TVal.num 0)]

/-- Counterexample to claim C8 as stated: in the voltage-only delta scenario
the emitted payload keys are voltage, type, drone_id, drone_name and
mission_status - the claimed key vehicle_id does not occur (the code uses
drone_id). -/
theorem telemetry_envelope_counterexample :
    buildBroadcastMessage exTelemetry exPrevSnap false false "idle" "d1" "Drone-1" []
      = some [("voltage", TVal.num 11), ("type", TVal.str "telemetry"),
              ("drone_id", TVal.str "d1"), ("drone_name", TVal.str "Drone-1"),
              ("mission_status", TVal.str "idle")]
    ∧ "vehicle_id" ∉ ([("voltage", TVal.num 11), ("type", TVal.str "telemetry"),
              ("drone_id", TVal.str "d1"), ("drone_name", TVal.str "Drone-1"),
              ("mission_status", TVal.str "idle")].map Prod.fst) := by
  exact ⟨rfl, by decide⟩

/-- Witness for the amended C8, applying the contract at the concrete
snapshots. -/
theorem telemetry_envelope_amended_witness :
    buildBroadcastMessage exTelemetry exPrevSnap false false "idle" "d1" "Drone-1" []
      = some (attachEnvelope [("voltage", TVal.num 11)] "d1" "Drone-1" "idle" [])
    ∧ (attachEnvelope [("voltage", TVal.num 11)] "d1" "Drone-1" "idle" []).map Prod.fst
      = ["voltage", "type", "drone_id", "drone_name", "mission_status"] := by
  exact (telemetry_envelope_amended exTelemetry exPrevSnap false false "idle" "d1" "Drone-1"
    [] (TVal.num 11)).2 (by decide) (by decide) (by decide) (by decide) (by decide)
    rfl rfl rfl rfl

end Pyxus
